import Mathlib

/-!
Shallow embedding of the budget-request backend (createBudgetRequest,
updateBudgetRequest, submitBudgetRequest, getBudgetRequestById,
getBudgetRequests) over an explicit in-memory store standing for the
database tables declared in `src/server/src/db/schema.ts`.

Monetary values are modelled as exact rationals (`Rat`), timestamps and
dates as natural numbers, ids as integers.  The nondeterministic "now"
of `new Date()` is passed in explicitly.  SQL `order by created_at desc`
is modelled by a deterministic insertion sort on `created_at`.
-/

namespace BudgetApp

/-- Status enum from `budgetRequestStatusSchema` / `budget_request_status`. -/
inductive Status where
  | draft
  | processing
  | review
  | approved
  | rejected
deriving DecidableEq, Repr

/-- Priority enum from `budgetRequestPrioritySchema` / `budget_request_priority`. -/
inductive Priority where
  | low
  | medium
  | high
  | critical
deriving DecidableEq, Repr

/-- Rendering of a status into the text that JS string interpolation produces. -/
def Status.toText : Status → String
  | .draft => "draft"
  | .processing => "processing"
  | .review => "review"
  | .approved => "approved"
  | .rejected => "rejected"

/-- Row of the `departments` table. -/
structure Department where
  id : Int
  name : String
  code : String
  description : Option String
  head_name : String
  contact_email : String
  contact_phone : Option String
  created_at : Nat
  updated_at : Nat
deriving DecidableEq, Repr

/-- Row of the `budget_categories` table. -/
structure BudgetCategory where
  id : Int
  name : String
  code : String
  description : Option String
  created_at : Nat
deriving DecidableEq, Repr

/-- Row of the `budget_requests` table (amounts as exact rationals). -/
structure BudgetRequest where
  id : Int
  title : String
  description : String
  department_id : Int
  category_id : Int
  requested_amount : Rat
  justification : String
  priority : Priority
  status : Status
  fiscal_year : Int
  expected_start_date : Nat
  expected_end_date : Nat
  submitted_by : String
  submitted_at : Option Nat
  reviewed_by : Option String
  reviewed_at : Option Nat
  review_notes : Option String
  created_at : Nat
  updated_at : Nat
deriving DecidableEq, Repr

/-- Row of the `budget_line_items` table. -/
structure BudgetLineItem where
  id : Int
  budget_request_id : Int
  description : String
  quantity : Int
  unit_price : Rat
  total_amount : Rat
  notes : Option String
  created_at : Nat
deriving DecidableEq, Repr

/-- One line item of `createBudgetRequestInputSchema.line_items`. -/
structure LineItemInput where
  description : String
  quantity : Int
  unit_price : Rat
  notes : Option String
deriving DecidableEq, Repr

/-- Input of `createBudgetRequest` (`CreateBudgetRequestInput`). -/
structure CreateBudgetRequestInput where
  title : String
  description : String
  department_id : Int
  category_id : Int
  requested_amount : Rat
  justification : String
  priority : Priority
  fiscal_year : Int
  expected_start_date : Nat
  expected_end_date : Nat
  submitted_by : String
  line_items : List LineItemInput
deriving DecidableEq, Repr

/-- Input of `updateBudgetRequest` (`UpdateBudgetRequestInput`): every mutable
field optional; `review_notes`/`reviewed_by` distinguish "absent" from
"present but null". -/
structure UpdateBudgetRequestInput where
  id : Int
  title : Option String
  description : Option String
  department_id : Option Int
  category_id : Option Int
  requested_amount : Option Rat
  justification : Option String
  priority : Option Priority
  fiscal_year : Option Int
  expected_start_date : Option Nat
  expected_end_date : Option Nat
  status : Option Status
  review_notes : Option (Option String)
  reviewed_by : Option (Option String)
deriving DecidableEq, Repr

/-- Input of `getBudgetRequests` (`GetBudgetRequestsInput`). -/
structure GetBudgetRequestsInput where
  department_id : Option Int
  status : Option Status
  fiscal_year : Option Int
  priority : Option Priority
  limit : Nat
  offset : Nat
deriving DecidableEq, Repr

/-- The database: the four tables plus serial counters for fresh ids. -/
structure Store where
  departments : List Department
  categories : List BudgetCategory
  requests : List BudgetRequest
  lineItems : List BudgetLineItem
  nextRequestId : Int
  nextLineItemId : Int
deriving DecidableEq, Repr

/-- The typed errors the handlers raise (`throw new Error(...)`). -/
inductive ServiceError where
  | amountMismatch
  | departmentNotFound
  | categoryNotFound
  | invalidTransition (current : Status)
  | incompleteRequiredFields
  | incompleteSubmitter
deriving DecidableEq, Repr

/-- The exact message text of each raised error. -/
def ServiceError.message : ServiceError → String
  | .amountMismatch => "Requested amount does not match sum of line items"
  | .departmentNotFound => "Department not found"
  | .categoryNotFound => "Budget category not found"
  | .invalidTransition current =>
      "Budget request cannot be submitted. Current status: " ++ current.toText
  | .incompleteRequiredFields =>
      "Budget request is incomplete. All required fields must be filled."
  | .incompleteSubmitter =>
      "Budget request is incomplete. Submitter information is required."

/-- Translation of `input.line_items.reduce((sum, item) => sum + item.quantity * item.unit_price, 0)`. -/
def lineItemsTotal (items : List LineItemInput) : Rat :=
  items.foldl (fun sum item => sum + (item.quantity : Rat) * item.unit_price) 0

/-- Translation of `db.select().from(budgetRequestsTable).where(eq(budgetRequestsTable.id, id))`
followed by the `length === 0` check: first row with the given id. -/
def findRequest (s : Store) (id : Int) : Option BudgetRequest :=
  s.requests.find? (fun r => r.id == id)

/-- Translation of `db.update(budgetRequestsTable).set(...).where(eq(id))`: replaces the rows
whose id matches the updated row's id. -/
def replaceRequest (rs : List BudgetRequest) (r' : BudgetRequest) : List BudgetRequest :=
  rs.map (fun r => if r.id == r'.id then r' else r)

/-- Translation of `createBudgetRequest` in `src/unnamed/part_003`: amount reconciliation first,
then department lookup, then category lookup, then the transactional insert of
the request row (status defaulted to draft) and its line-item rows. -/
def createBudgetRequest (s : Store) (now : Nat) (input : CreateBudgetRequestInput) :
    Except ServiceError (Store × BudgetRequest) :=
  let totalLineItemsAmount := lineItemsTotal input.line_items
  if |input.requested_amount - totalLineItemsAmount| > 1 / 100 then
    .error .amountMismatch
  else if (s.departments.filter (fun d => d.id == input.department_id)).length = 0 then
    .error .departmentNotFound
  else if (s.categories.filter (fun c => c.id == input.category_id)).length = 0 then
    .error .categoryNotFound
  else
    let req : BudgetRequest :=
      { id := s.nextRequestId
        title := input.title
        description := input.description
        department_id := input.department_id
        category_id := input.category_id
        requested_amount := input.requested_amount
        justification := input.justification
        priority := input.priority
        status := .draft
        fiscal_year := input.fiscal_year
        expected_start_date := input.expected_start_date
        expected_end_date := input.expected_end_date
        submitted_by := input.submitted_by
        submitted_at := none
        reviewed_by := none
        reviewed_at := none
        review_notes := none
        created_at := now
        updated_at := now }
    let newItems := input.line_items.enum.map (fun p =>
      { id := s.nextLineItemId + (p.1 : Int)
        budget_request_id := req.id
        description := p.2.description
        quantity := p.2.quantity
        unit_price := p.2.unit_price
        total_amount := (p.2.quantity : Rat) * p.2.unit_price
        notes := p.2.notes
        created_at := now : BudgetLineItem })
    .ok ({ s with
            requests := s.requests ++ [req]
            lineItems := s.lineItems ++ newItems
            nextRequestId := s.nextRequestId + 1
            nextLineItemId := s.nextLineItemId + (input.line_items.length : Int) },
         req)

/-- The `updateData` object built by `updateBudgetRequest` applied to the
existing row: provided fields overwrite, `updated_at` is refreshed, and the
status branch stamps `submitted_at` / `reviewed_at` only when currently null. -/
def applyUpdateData (r : BudgetRequest) (now : Nat) (input : UpdateBudgetRequestInput) :
    BudgetRequest :=
  { r with
    updated_at := now
    title := input.title.getD r.title
    description := input.description.getD r.description
    department_id := input.department_id.getD r.department_id
    category_id := input.category_id.getD r.category_id
    requested_amount := input.requested_amount.getD r.requested_amount
    justification := input.justification.getD r.justification
    priority := input.priority.getD r.priority
    fiscal_year := input.fiscal_year.getD r.fiscal_year
    expected_start_date := input.expected_start_date.getD r.expected_start_date
    expected_end_date := input.expected_end_date.getD r.expected_end_date
    status := input.status.getD r.status
    submitted_at :=
      match input.status with
      | some .processing => if r.submitted_at = none then some now else r.submitted_at
      | _ => r.submitted_at
    reviewed_at :=
      match input.status with
      | some .approved => if r.reviewed_at = none then some now else r.reviewed_at
      | some .rejected => if r.reviewed_at = none then some now else r.reviewed_at
      | _ => r.reviewed_at
    review_notes := input.review_notes.getD r.review_notes
    reviewed_by := input.reviewed_by.getD r.reviewed_by }

/-- Translation of `updateBudgetRequest` in `src/server/src/handlers/update_budget_request.ts`:
null when the id matches no row, otherwise persist the partial update. -/
def updateBudgetRequest (s : Store) (now : Nat) (input : UpdateBudgetRequestInput) :
    Option (Store × BudgetRequest) :=
  match findRequest s input.id with
  | none => none
  | some r =>
    let r' := applyUpdateData r now input
    some ({ s with requests := replaceRequest s.requests r' }, r')

/-- Translation of `submitBudgetRequest` from `src/server/src/handlers/get_budget_request_by_id.ts`:
null when absent; InvalidTransition unless status is draft; completeness checks
on title/description/justification and submitted_by (the date-presence check of
the source can never fire, both date columns being non-null); then status
becomes processing and `submitted_at` is stamped unconditionally. -/
def submitBudgetRequest (s : Store) (now : Nat) (id : Int) :
    Except ServiceError (Option (Store × BudgetRequest)) :=
  match findRequest s id with
  | none => .ok none
  | some r =>
    if r.status ≠ .draft then
      .error (.invalidTransition r.status)
    else if r.title = "" ∨ r.description = "" ∨ r.justification = "" then
      .error .incompleteRequiredFields
    else if r.submitted_by = "" then
      .error .incompleteSubmitter
    else
      let r' := { r with status := .processing, submitted_at := some now, updated_at := now }
      .ok (some ({ s with requests := replaceRequest s.requests r' }, r'))

/-- Translation of `getBudgetRequestById`: point lookup, null when absent. -/
def getBudgetRequestById (s : Store) (id : Int) : Option BudgetRequest :=
  findRequest s id

/-- One filter condition per provided field, conjoined (the `conditions` array). -/
def matchesFilter (input : GetBudgetRequestsInput) (r : BudgetRequest) : Bool :=
  (match input.department_id with | none => true | some d => r.department_id == d) &&
  (match input.status with | none => true | some st => r.status == st) &&
  (match input.fiscal_year with | none => true | some fy => r.fiscal_year == fy) &&
  (match input.priority with | none => true | some p => r.priority == p)

/-- Translation of `innerJoin(departmentsTable, eq(department_id, departments.id))`: the row
survives the join iff some department row carries its department_id. -/
def hasDepartment (s : Store) (r : BudgetRequest) : Bool :=
  s.departments.any (fun d => d.id == r.department_id)

/-- Translation of `innerJoin(budgetCategoriesTable, ...)`: likewise for the category. -/
def hasCategory (s : Store) (r : BudgetRequest) : Bool :=
  s.categories.any (fun c => c.id == r.category_id)

/-- Model of `order by created_at desc`: later-created rows first. -/
def createdGE (a b : BudgetRequest) : Prop :=
  b.created_at ≤ a.created_at

instance : DecidableRel createdGE :=
  fun a b => inferInstanceAs (Decidable (b.created_at ≤ a.created_at))

instance : IsTotal BudgetRequest createdGE :=
  ⟨fun a b => Nat.le_total b.created_at a.created_at⟩

instance : IsTrans BudgetRequest createdGE :=
  ⟨fun _ _ _ h1 h2 => Nat.le_trans h2 h1⟩

/-- Deterministic model of the SQL sort `order by created_at desc`. -/
def sortByCreatedDesc (rs : List BudgetRequest) : List BudgetRequest :=
  List.insertionSort createdGE rs

/-- Result shape of `getBudgetRequests`. -/
structure PageResult where
  requests : List BudgetRequest
  total : Nat
  hasMore : Bool
deriving DecidableEq, Repr

/-- Translation of `getBudgetRequests` in `src/server/src/handlers/get_budget_requests.ts`: the
page is computed from the requests inner-joined with departments and
categories, filtered, sorted by created_at descending, offset/limit applied;
`total` is counted over `budget_requests` alone with the same conditions;
`hasMore = offset + limit < total`. -/
def getBudgetRequests (s : Store) (input : GetBudgetRequestsInput) : PageResult :=
  let joined := s.requests.filter (fun r => hasDepartment s r && hasCategory s r)
  let page :=
    ((sortByCreatedDesc (joined.filter (matchesFilter input))).drop input.offset).take
      input.limit
  let total := (s.requests.filter (matchesFilter input)).length
  { requests := page
    total := total
    hasMore := decide (input.offset + input.limit < total) }

/-- An update input providing no field beyond the id. -/
def emptyUpdate (id : Int) : UpdateBudgetRequestInput :=
  { id := id
    title := none
    description := none
    department_id := none
    category_id := none
    requested_amount := none
    justification := none
    priority := none
    fiscal_year := none
    expected_start_date := none
    expected_end_date := none
    status := none
    review_notes := none
    reviewed_by := none }

/-- A single service operation, for reasoning about operation sequences. -/
inductive Op where
  | update (now : Nat) (input : UpdateBudgetRequestInput)
  | submit (now : Nat) (id : Int)

/-- Running one operation against the store; a failed or not-found operation
leaves the store unchanged. -/
def applyOp (s : Store) : Op → Store
  | .update now input =>
    match updateBudgetRequest s now input with
    | none => s
    | some (s', _) => s'
  | .submit now id =>
    match submitBudgetRequest s now id with
    | .ok (some (s', _)) => s'
    | _ => s

/-- Running a sequence of operations. -/
def applyOps (s : Store) (ops : List Op) : Store :=
  ops.foldl applyOp s

deriving instance DecidableEq for Except

/-! ### Concrete fixtures -/

/-- A department row, as the tests seed one. -/
def dept1 : Department :=
  { id := 1, name := "Engineering", code := "ENG", description := none,
    head_name := "Jane Doe", contact_email := "jane@agency.gov", contact_phone := none,
    created_at := 0, updated_at := 0 }

/-- A budget-category row. -/
def cat1 : BudgetCategory :=
  { id := 1, name := "Software", code := "SW", description := none, created_at := 0 }

/-- The store holding only the reference data, before any request exists. -/
def store0 : Store :=
  { departments := [dept1], categories := [cat1], requests := [], lineItems := [],
    nextRequestId := 1, nextLineItemId := 1 }

/-- Two line items summing to 2 * 400 + 1 * 400 = 1200. -/
def sampleItems : List LineItemInput :=
  [ { description := "License A", quantity := 2, unit_price := 400, notes := none },
    { description := "License B", quantity := 1, unit_price := 400, notes := none } ]

/-- A create input whose declared amount matches its line items. -/
def sampleInput : CreateBudgetRequestInput :=
  { title := "Server upgrade", description := "Replace aging servers",
    department_id := 1, category_id := 1, requested_amount := 1200,
    justification := "End of hardware life", priority := .medium, fiscal_year := 2024,
    expected_start_date := 100, expected_end_date := 200,
    submitted_by := "Alice", line_items := sampleItems }

/-- The draft request row that `createBudgetRequest store0 0 sampleInput` inserts. -/
def req1 : BudgetRequest :=
  { id := 1, title := "Server upgrade", description := "Replace aging servers",
    department_id := 1, category_id := 1, requested_amount := 1200,
    justification := "End of hardware life", priority := .medium, status := .draft,
    fiscal_year := 2024, expected_start_date := 100, expected_end_date := 200,
    submitted_by := "Alice", submitted_at := none, reviewed_by := none,
    reviewed_at := none, review_notes := none, created_at := 0, updated_at := 0 }

/-- First inserted line-item row. -/
def item1 : BudgetLineItem :=
  { id := 1, budget_request_id := 1, description := "License A", quantity := 2,
    unit_price := 400, total_amount := 800, notes := none, created_at := 0 }

/-- Second inserted line-item row. -/
def item2 : BudgetLineItem :=
  { id := 2, budget_request_id := 1, description := "License B", quantity := 1,
    unit_price := 400, total_amount := 400, notes := none, created_at := 0 }

/-- The store after the sample create: one draft request with its items. -/
def store1 : Store :=
  { departments := [dept1], categories := [cat1], requests := [req1],
    lineItems := [item1, item2], nextRequestId := 2, nextLineItemId := 3 }

/-- A store with no departments at all. -/
def storeNoDept : Store :=
  { departments := [], categories := [cat1], requests := [], lineItems := [],
    nextRequestId := 1, nextLineItemId := 1 }

/-- The spec's mismatch example: declared 1500 against a 1200 line-item sum. -/
def mismatchInput : CreateBudgetRequestInput :=
  { sampleInput with requested_amount := 1500 }

/-- The row `req1` after it has been moved to processing by an update. -/
def reqProc : BudgetRequest :=
  { req1 with status := .processing }

/-- A store whose only request is already processing. -/
def storeProc : Store :=
  { store1 with requests := [reqProc] }

/-! ### Helper lemmas -/

/-- The sample create succeeds and yields exactly `store1` and `req1`:
`store1` is a reachable store. -/
theorem create_sample : createBudgetRequest store0 0 sampleInput = .ok (store1, req1) := by
  have h : ¬ (|sampleInput.requested_amount - lineItemsTotal sampleInput.line_items| > 1 / 100) := by
    norm_num [sampleInput, sampleItems, lineItemsTotal]
  simp only [createBudgetRequest, h, if_false]
  norm_num [store0, store1, dept1, cat1, sampleInput, sampleItems, req1, item1, item2,
    List.enum, List.enumFrom]

/-! ### C1 -/

/-- C1: for a create input whose department and category both exist,
`createBudgetRequest` fails with AmountMismatch iff the declared amount differs
from the computed line-item sum by more than 0.01; within the tolerance the
creation proceeds. -/
theorem createBudgetRequest_amountMismatch_iff
    (s : Store) (now : Nat) (input : CreateBudgetRequestInput)
    (hd : (s.departments.filter (fun d => d.id == input.department_id)).length ≠ 0)
    (hc : (s.categories.filter (fun c => c.id == input.category_id)).length ≠ 0) :
    ((createBudgetRequest s now input = .error .amountMismatch) ↔
      |input.requested_amount - lineItemsTotal input.line_items| > 1 / 100) ∧
    (|input.requested_amount - lineItemsTotal input.line_items| ≤ 1 / 100 →
      ∃ out, createBudgetRequest s now input = .ok out) := by
  by_cases hm : |input.requested_amount - lineItemsTotal input.line_items| > 1 / 100
  · refine ⟨⟨fun _ => hm, fun _ => ?_⟩, fun hle => absurd hle (not_le.mpr hm)⟩
    simp only [createBudgetRequest]
    rw [if_pos hm]
  · have hok : ∃ out, createBudgetRequest s now input = .ok out := by
      simp only [createBudgetRequest]
      rw [if_neg hm, if_neg hd, if_neg hc]
      exact ⟨_, rfl⟩
    obtain ⟨out, hout⟩ := hok
    refine ⟨⟨fun h => ?_, fun h => absurd h hm⟩, fun _ => ⟨out, hout⟩⟩
    rw [hout] at h
    exact absurd h (by simp)

/-- C1 witness: at `store1` the sample input is within tolerance and creation
proceeds. -/
theorem createBudgetRequest_amountMismatch_iff_witness :
    (store1.departments.filter (fun d => d.id == sampleInput.department_id)).length ≠ 0 ∧
    (store1.categories.filter (fun c => c.id == sampleInput.category_id)).length ≠ 0 ∧
    |sampleInput.requested_amount - lineItemsTotal sampleInput.line_items| ≤ 1 / 100 ∧
    ∃ out, createBudgetRequest store1 0 sampleInput = .ok out :=
  ⟨by decide, by decide, by norm_num [sampleInput, sampleItems, lineItemsTotal],
    (createBudgetRequest_amountMismatch_iff store1 0 sampleInput (by decide) (by decide)).2
      (by norm_num [sampleInput, sampleItems, lineItemsTotal])⟩

/-! ### C2 -/

/-- C2: submit on a persisted non-draft request fails with InvalidTransition
whose message names the current status; submit on a draft whose required text
fields and submitter are non-empty (its date columns are always present)
succeeds, returning the request with status processing and non-null
submitted_at. -/
theorem submitBudgetRequest_draft_only
    (s : Store) (now : Nat) (id : Int) (r : BudgetRequest)
    (hf : findRequest s id = some r) :
    (r.status ≠ .draft →
      submitBudgetRequest s now id = .error (.invalidTransition r.status) ∧
      (ServiceError.invalidTransition r.status).message =
        "Budget request cannot be submitted. Current status: " ++ r.status.toText) ∧
    (r.status = .draft → r.title ≠ "" → r.description ≠ "" → r.justification ≠ "" →
      r.submitted_by ≠ "" →
      ∃ s' r', submitBudgetRequest s now id = .ok (some (s', r')) ∧
        r'.status = .processing ∧ r'.submitted_at = some now) := by
  simp only [submitBudgetRequest, hf]
  constructor
  · intro hnd
    rw [if_pos hnd]
    exact ⟨rfl, rfl⟩
  · intro hdr ht hde hj hs
    rw [if_neg (not_not_intro hdr), if_neg (by simp [ht, hde, hj]), if_neg hs]
    exact ⟨_, _, rfl, rfl, rfl⟩

/-- C2 witness: submitting the processing request fails naming "processing";
submitting the complete draft `req1` succeeds with submitted_at = 5. -/
theorem submitBudgetRequest_draft_only_witness :
    submitBudgetRequest storeProc 5 1 = .error (.invalidTransition .processing) ∧
    ∃ s' r', submitBudgetRequest store1 5 1 = .ok (some (s', r')) ∧
      r'.status = .processing ∧ r'.submitted_at = some 5 :=
  ⟨((submitBudgetRequest_draft_only storeProc 5 1 reqProc (by decide)).1 (by decide)).1,
    (submitBudgetRequest_draft_only store1 5 1 req1 (by decide)).2 rfl (by decide)
      (by decide) (by decide) (by decide)⟩

/-! ### C7 -/

/-- C7 counterexample: with no matching department and an amount off by 300,
`createBudgetRequest` fails with AmountMismatch, not DepartmentNotFound — the
amount check runs before the reference checks. -/
theorem amount_checked_before_department_cex :
    (storeNoDept.departments.filter
      (fun d => d.id == mismatchInput.department_id)).length = 0 ∧
    |mismatchInput.requested_amount - lineItemsTotal mismatchInput.line_items| > 1 / 100 ∧
    createBudgetRequest storeNoDept 0 mismatchInput = .error .amountMismatch ∧
    createBudgetRequest storeNoDept 0 mismatchInput ≠ .error .departmentNotFound := by
  have hm : |mismatchInput.requested_amount - lineItemsTotal mismatchInput.line_items|
      > 1 / 100 := by
    norm_num [mismatchInput, sampleInput, sampleItems, lineItemsTotal]
  have hcr : createBudgetRequest storeNoDept 0 mismatchInput = .error .amountMismatch := by
    simp only [createBudgetRequest]
    rw [if_pos hm]
  refine ⟨rfl, hm, hcr, ?_⟩
  rw [hcr]
  simp

/-- C7 (amended): `createBudgetRequest` applies amount reconciliation before the
reference checks: a mismatched amount fails with AmountMismatch regardless of
department existence, and a within-tolerance amount with a nonexistent
department fails with DepartmentNotFound. -/
theorem create_amount_before_references
    (s : Store) (now : Nat) (input : CreateBudgetRequestInput) :
    (|input.requested_amount - lineItemsTotal input.line_items| > 1 / 100 →
      createBudgetRequest s now input = .error .amountMismatch) ∧
    (|input.requested_amount - lineItemsTotal input.line_items| ≤ 1 / 100 →
      (s.departments.filter (fun d => d.id == input.department_id)).length = 0 →
      createBudgetRequest s now input = .error .departmentNotFound) := by
  constructor
  · intro hm
    simp only [createBudgetRequest]
    rw [if_pos hm]
  · intro hm hd
    simp only [createBudgetRequest]
    rw [if_neg (not_lt.mpr hm), if_pos hd]

/-- C7 (amended) witness: both branches at concrete inputs. -/
theorem create_amount_before_references_witness :
    |mismatchInput.requested_amount - lineItemsTotal mismatchInput.line_items| > 1 / 100 ∧
    createBudgetRequest store1 0 mismatchInput = .error .amountMismatch ∧
    |sampleInput.requested_amount - lineItemsTotal sampleInput.line_items| ≤ 1 / 100 ∧
    createBudgetRequest storeNoDept 0 sampleInput = .error .departmentNotFound := by
  have h1 : |mismatchInput.requested_amount - lineItemsTotal mismatchInput.line_items|
      > 1 / 100 := by
    norm_num [mismatchInput, sampleInput, sampleItems, lineItemsTotal]
  have h2 : |sampleInput.requested_amount - lineItemsTotal sampleInput.line_items|
      ≤ 1 / 100 := by
    norm_num [sampleInput, sampleItems, lineItemsTotal]
  exact ⟨h1, (create_amount_before_references store1 0 mismatchInput).1 h1, h2,
    (create_amount_before_references storeNoDept 0 sampleInput).2 h2 rfl⟩

/-! ### C8 -/

/-- C8: for an id matching no stored request, lookup and update return null and
submit returns a null success — none of them raises an error. -/
theorem notFound_returns_null
    (s : Store) (now : Nat) (id : Int)
    (hf : findRequest s id = none) :
    getBudgetRequestById s id = none ∧
    (∀ input : UpdateBudgetRequestInput, input.id = id →
      updateBudgetRequest s now input = none) ∧
    submitBudgetRequest s now id = .ok none := by
  refine ⟨hf, ?_, ?_⟩
  · intro input hid
    simp only [updateBudgetRequest, hid, hf]
  · simp only [submitBudgetRequest, hf]

/-- C8 witness: id 99 matches nothing in `store1`. -/
theorem notFound_returns_null_witness :
    getBudgetRequestById store1 99 = none ∧
    updateBudgetRequest store1 3 (emptyUpdate 99) = none ∧
    submitBudgetRequest store1 3 99 = .ok none :=
  ⟨(notFound_returns_null store1 3 99 (by decide)).1,
    (notFound_returns_null store1 3 99 (by decide)).2.1 (emptyUpdate 99) rfl,
    (notFound_returns_null store1 3 99 (by decide)).2.2⟩

/-! ### C5 -/

/-- C5: an update applies only the provided fields: every field the partial
input leaves out keeps its pre-update value; in particular a title-only update
changes nothing but title and updated_at. -/
theorem updateBudgetRequest_partial_frame
    (s : Store) (now : Nat) (input : UpdateBudgetRequestInput) (r : BudgetRequest)
    (hf : findRequest s input.id = some r) :
    (∀ s' r', updateBudgetRequest s now input = some (s', r') →
      (input.title = none → r'.title = r.title) ∧
      (input.description = none → r'.description = r.description) ∧
      (input.department_id = none → r'.department_id = r.department_id) ∧
      (input.category_id = none → r'.category_id = r.category_id) ∧
      (input.requested_amount = none → r'.requested_amount = r.requested_amount) ∧
      (input.justification = none → r'.justification = r.justification) ∧
      (input.priority = none → r'.priority = r.priority) ∧
      (input.fiscal_year = none → r'.fiscal_year = r.fiscal_year) ∧
      (input.expected_start_date = none → r'.expected_start_date = r.expected_start_date) ∧
      (input.expected_end_date = none → r'.expected_end_date = r.expected_end_date) ∧
      (input.status = none → r'.status = r.status ∧ r'.submitted_at = r.submitted_at ∧
        r'.reviewed_at = r.reviewed_at) ∧
      (input.review_notes = none → r'.review_notes = r.review_notes) ∧
      (input.reviewed_by = none → r'.reviewed_by = r.reviewed_by) ∧
      r'.id = r.id ∧ r'.created_at = r.created_at ∧ r'.submitted_by = r.submitted_by) ∧
    (∀ (inp2 : UpdateBudgetRequestInput) (t : String),
      inp2.id = input.id → inp2.title = some t →
      inp2.description = none → inp2.department_id = none → inp2.category_id = none →
      inp2.requested_amount = none → inp2.justification = none → inp2.priority = none →
      inp2.fiscal_year = none → inp2.expected_start_date = none →
      inp2.expected_end_date = none → inp2.status = none →
      inp2.review_notes = none → inp2.reviewed_by = none →
      updateBudgetRequest s now inp2 =
        some ({ s with requests :=
                  replaceRequest s.requests { r with title := t, updated_at := now } },
              { r with title := t, updated_at := now })) := by
  constructor
  · intro s' r' hupd
    simp only [updateBudgetRequest, hf, Option.some.injEq, Prod.mk.injEq] at hupd
    obtain ⟨-, hr⟩ := hupd
    subst hr
    refine ⟨?_, ?_, ?_, ?_, ?_, ?_, ?_, ?_, ?_, ?_, ?_, ?_, ?_, rfl, rfl, rfl⟩ <;>
      intro h <;> simp [applyUpdateData, h]
  · intro inp2 t hid ht hde hdi hci hra hj hp hfy hsd hed hst hrn hrb
    simp only [updateBudgetRequest, hid, hf]
    have : applyUpdateData r now inp2 = { r with title := t, updated_at := now } := by
      simp [applyUpdateData, ht, hde, hdi, hci, hra, hj, hp, hfy, hsd, hed, hst, hrn, hrb]
    rw [this]

/-- C5 witness: a title-only update of `req1` rewrites only title and
updated_at. -/
theorem updateBudgetRequest_partial_frame_witness :
    findRequest store1 (emptyUpdate 1).id = some req1 ∧
    updateBudgetRequest store1 7 { emptyUpdate 1 with title := some "New title" } =
      some ({ store1 with requests :=
                replaceRequest store1.requests { req1 with title := "New title", updated_at := 7 } },
            { req1 with title := "New title", updated_at := 7 }) :=
  ⟨by decide,
    (updateBudgetRequest_partial_frame store1 7 (emptyUpdate 1) req1 (by decide)).2
      { emptyUpdate 1 with title := some "New title" } "New title"
      rfl rfl rfl rfl rfl rfl rfl rfl rfl rfl rfl rfl rfl rfl⟩

/-! ### C9 -/

/-- C9: the update handler never checks that a provided department_id or
category_id references an existing row — it persists any provided value —
whereas create fails with DepartmentNotFound when the department is missing. -/
theorem update_skips_reference_checks
    (s : Store) (now : Nat) (id : Int) (r : BudgetRequest)
    (hf : findRequest s id = some r) :
    (∀ (inp2 : UpdateBudgetRequestInput) (d c : Int),
      inp2.id = id → inp2.department_id = some d → inp2.category_id = some c →
      ∃ s' r', updateBudgetRequest s now inp2 = some (s', r') ∧
        r'.department_id = d ∧ r'.category_id = c) ∧
    (∀ input : CreateBudgetRequestInput,
      (s.departments.filter (fun dp => dp.id == input.department_id)).length = 0 →
      |input.requested_amount - lineItemsTotal input.line_items| ≤ 1 / 100 →
      createBudgetRequest s now input = .error .departmentNotFound) := by
  constructor
  · intro inp2 d c hid hd hc
    refine ⟨{ s with requests := replaceRequest s.requests (applyUpdateData r now inp2) },
      applyUpdateData r now inp2, ?_, ?_, ?_⟩
    · simp only [updateBudgetRequest, hid, hf]
    · simp [applyUpdateData, hd]
    · simp [applyUpdateData, hc]
  · intro input hd hm
    simp only [createBudgetRequest]
    rw [if_neg (not_lt.mpr hm), if_pos hd]

/-- C9 witness: updating `req1` to the nonexistent department 999 and category
888 succeeds and persists them; creating with department 999 fails. -/
theorem update_skips_reference_checks_witness :
    store1.departments.all (fun dp => dp.id ≠ 999) ∧
    (∃ s' r', updateBudgetRequest store1 3
        { emptyUpdate 1 with department_id := some 999, category_id := some 888 } =
        some (s', r') ∧ r'.department_id = 999 ∧ r'.category_id = 888) ∧
    createBudgetRequest store1 0 { sampleInput with department_id := 999 } =
      .error .departmentNotFound :=
  ⟨by decide,
    (update_skips_reference_checks store1 3 1 req1 (by decide)).1
      { emptyUpdate 1 with department_id := some 999, category_id := some 888 } 999 888
      rfl rfl rfl,
    (update_skips_reference_checks store1 0 1 req1 (by decide)).2
      { sampleInput with department_id := 999 } (by decide)
      (by norm_num [sampleInput, sampleItems, lineItemsTotal])⟩

/-! ### C10 -/

/-- A request whose department_id (42) matches no department row. -/
def reqDangling : BudgetRequest :=
  { req1 with id := 7, department_id := 42 }

/-- A store containing only the dangling request. -/
def storeDangling : Store :=
  { store0 with requests := [reqDangling] }

/-- The unfiltered listing input with the maximal page size. -/
def allFilter : GetBudgetRequestsInput :=
  { department_id := none, status := none, fiscal_year := none, priority := none,
    limit := 100, offset := 0 }

/-- C10: the page is computed through inner joins while total is counted on
budget_requests alone, so a matching request with a dangling department_id is
counted in total yet appears in no page at any offset. -/
theorem getBudgetRequests_total_counts_unjoined_rows :
    (getBudgetRequests storeDangling allFilter).total = 1 ∧
    (getBudgetRequests storeDangling allFilter).requests = [] ∧
    ∀ off : Nat,
      (getBudgetRequests storeDangling { allFilter with offset := off }).requests = [] := by
  have hj : storeDangling.requests.filter
      (fun r => hasDepartment storeDangling r && hasCategory storeDangling r) = [] := by
    decide
  refine ⟨rfl, ?_, ?_⟩
  · simp [getBudgetRequests, hj, sortByCreatedDesc]
  · intro off
    simp [getBudgetRequests, hj, sortByCreatedDesc]

/-! ### C4 -/

/-- Position of each status along the draft → processing → review →
approved/rejected graph. -/
def statusRank : Status → Nat
  | .draft => 0
  | .processing => 1
  | .review => 2
  | .approved => 3
  | .rejected => 3

/-- An update input that approves request 1. -/
def approveInput : UpdateBudgetRequestInput :=
  { emptyUpdate 1 with status := some .approved, reviewed_by := some (some "Manager") }

/-- An update input that puts request 1 back to draft. -/
def demoteInput : UpdateBudgetRequestInput :=
  { emptyUpdate 1 with status := some .draft }

/-- C4 counterexample: from the reachable store holding the created request,
an update moves it to approved and a second update moves it back to draft —
a backward move along the status graph. -/
theorem status_backward_update_cex :
    createBudgetRequest store0 0 sampleInput = .ok (store1, req1) ∧
    (findRequest (applyOps store1 [Op.update 1 approveInput]) 1).map
      (fun r => r.status) = some .approved ∧
    (findRequest (applyOps store1 [Op.update 1 approveInput, Op.update 2 demoteInput]) 1).map
      (fun r => r.status) = some .draft ∧
    statusRank .draft < statusRank .approved :=
  ⟨create_sample, by decide, by decide, by decide⟩

/-- The row `req1` after a successful submit at time 5. -/
def req1sub : BudgetRequest :=
  { req1 with status := .processing, submitted_at := some 5, updated_at := 5 }

/-- The store after that submit. -/
def store1sub : Store :=
  { store1 with requests := [req1sub] }

/-- C4 (amended): submit only ever moves draft → processing (never backward),
while the general update operation sets any provided status unconditionally,
without enforcing the transition graph. -/
theorem transition_enforcement_split
    (s : Store) (now : Nat) (id : Int) :
    (∀ s' r', submitBudgetRequest s now id = .ok (some (s', r')) →
      ∃ r, findRequest s id = some r ∧ r.status = .draft ∧ r'.status = .processing ∧
        statusRank r.status ≤ statusRank r'.status) ∧
    (∀ (input : UpdateBudgetRequestInput) (r : BudgetRequest) (st : Status),
      input.id = id → findRequest s id = some r → input.status = some st →
      ∃ s' r', updateBudgetRequest s now input = some (s', r') ∧ r'.status = st) := by
  constructor
  · intro s' r' h
    cases hfind : findRequest s id with
    | none => simp [submitBudgetRequest, hfind] at h
    | some r =>
      simp only [submitBudgetRequest, hfind] at h
      by_cases h1 : r.status ≠ Status.draft
      · rw [if_pos h1] at h
        simp at h
      · rw [if_neg h1] at h
        by_cases h2 : r.title = "" ∨ r.description = "" ∨ r.justification = ""
        · rw [if_pos h2] at h
          simp at h
        · rw [if_neg h2] at h
          by_cases h3 : r.submitted_by = ""
          · rw [if_pos h3] at h
            simp at h
          · rw [if_neg h3] at h
            simp only [Except.ok.injEq, Option.some.injEq, Prod.mk.injEq] at h
            obtain ⟨-, hr⟩ := h
            subst hr
            exact ⟨r, rfl, not_not.mp h1, rfl, by rw [not_not.mp h1]; exact Nat.zero_le _⟩
  · intro input r st hid hfind hst
    refine ⟨{ s with requests := replaceRequest s.requests (applyUpdateData r now input) },
      applyUpdateData r now input, ?_, ?_⟩
    · simp only [updateBudgetRequest, hid, hfind]
    · simp [applyUpdateData, hst]

/-- C4 (amended) witness: the concrete submit of `req1` moves draft to
processing, and a concrete update sets status review directly. -/
theorem transition_enforcement_split_witness :
    (∃ r, findRequest store1 1 = some r ∧ r.status = .draft ∧ req1sub.status = .processing ∧
      statusRank r.status ≤ statusRank req1sub.status) ∧
    (∃ s' r', updateBudgetRequest store1 9 { emptyUpdate 1 with status := some .review } =
      some (s', r') ∧ r'.status = .review) :=
  ⟨(transition_enforcement_split store1 5 1).1 store1sub req1sub (by decide),
    (transition_enforcement_split store1 9 1).2 { emptyUpdate 1 with status := some .review }
      req1 .review rfl (by decide) rfl⟩

/-! ### C3 -/

/-- Replacing the rows of an id with a row carrying that same id keeps `find?`
returning the replacement. -/
theorem find?_replaceRequest_self (l : List BudgetRequest) (id : Int)
    (r r' : BudgetRequest) (hid : r'.id = r.id) :
    l.find? (fun x => x.id == id) = some r →
    (replaceRequest l r').find? (fun x => x.id == id) = some r' := by
  induction l with
  | nil => intro h; simp at h
  | cons a l ih =>
    intro h
    have hrid : r.id = id := by simpa using List.find?_some h
    by_cases ha : a.id = id
    · rw [List.find?_cons_of_pos _ (by simpa using ha)] at h
      have ha' : a = r := Option.some.inj h
      subst ha'
      show ((if (a.id == r'.id) = true then r' else a) :: replaceRequest l r').find?
        (fun x => x.id == id) = some r'
      have hc : (a.id == r'.id) = true := by simp [hid]
      rw [if_pos hc]
      exact List.find?_cons_of_pos _ (by simp [hid, hrid])
    · rw [List.find?_cons_of_neg _ (by simpa using ha)] at h
      show ((if (a.id == r'.id) = true then r' else a) :: replaceRequest l r').find?
        (fun x => x.id == id) = some r'
      have hbid : (if a.id = r'.id then r' else a).id = a.id := by
        split
        · next hcase => exact hcase.symm
        · rfl
      rw [List.find?_cons_of_neg _ (by simp [hbid, ha])]
      exact ih h

/-- Replacing the rows of some other id leaves `find?` unchanged. -/
theorem find?_replaceRequest_other (l : List BudgetRequest) (id : Int)
    (r' : BudgetRequest) (hne : r'.id ≠ id) :
    (replaceRequest l r').find? (fun x => x.id == id) =
      l.find? (fun x => x.id == id) := by
  induction l with
  | nil => rfl
  | cons a l ih =>
    show ((if (a.id == r'.id) = true then r' else a) :: replaceRequest l r').find?
      (fun x => x.id == id) = _
    by_cases ha : a.id = id
    · have hc : (a.id == r'.id) = false := by
        rw [beq_eq_false_iff_ne]
        intro hcontra
        exact hne (by rw [← hcontra, ha])
      rw [if_neg (by simp [hc])]
      rw [List.find?_cons_of_pos _ (by simpa using ha),
        List.find?_cons_of_pos _ (by simpa using ha)]
    · have hbid : (if a.id = r'.id then r' else a).id = a.id := by
        split
        · next hcase => exact hcase.symm
        · rfl
      rw [List.find?_cons_of_neg _ (by simp [hbid, ha]),
        List.find?_cons_of_neg _ (by simpa using ha)]
      exact ih

/-- The row a successful submit writes back. -/
def submitRow (r : BudgetRequest) (now : Nat) : BudgetRequest :=
  { r with status := .processing, submitted_at := some now, updated_at := now }

/-- The update-data construction never clears an already-set reviewed_at. -/
theorem applyUpdateData_reviewed_at (r : BudgetRequest) (now : Nat)
    (input : UpdateBudgetRequestInput) (t : Nat) (h : r.reviewed_at = some t) :
    (applyUpdateData r now input).reviewed_at = some t := by
  simp only [applyUpdateData]
  cases hs : input.status with
  | none => simpa using h
  | some st => cases st <;> simp [h]

/-- The update-data construction never changes an already-set submitted_at. -/
theorem applyUpdateData_submitted_at (r : BudgetRequest) (now : Nat)
    (input : UpdateBudgetRequestInput) (h : r.submitted_at ≠ none) :
    (applyUpdateData r now input).submitted_at = r.submitted_at := by
  simp only [applyUpdateData]
  cases hs : input.status with
  | none => rfl
  | some st => cases st <;> simp [h]

/-- No single operation clears a set reviewed_at of any request. -/
theorem reviewed_at_persists_step (s : Store) (id : Int) (t : Nat) (op : Op)
    (h : ∃ r, findRequest s id = some r ∧ r.reviewed_at = some t) :
    ∃ r, findRequest (applyOp s op) id = some r ∧ r.reviewed_at = some t := by
  obtain ⟨r, hfind, hrev⟩ := h
  cases op with
  | update now input =>
    cases hf0 : findRequest s input.id with
    | none =>
      have hnone : updateBudgetRequest s now input = none := by
        simp [updateBudgetRequest, hf0]
      simp only [applyOp, hnone]
      exact ⟨r, hfind, hrev⟩
    | some r0 =>
      have hupd : updateBudgetRequest s now input =
          some ({ s with
                  requests := replaceRequest s.requests (applyUpdateData r0 now input) },
            applyUpdateData r0 now input) := by
        simp [updateBudgetRequest, hf0]
      simp only [applyOp, hupd]
      have hr0id : r0.id = input.id := by simpa using List.find?_some hf0
      by_cases hcase : input.id = id
      · subst hcase
        have hr0 : r0 = r := Option.some.inj (hf0.symm.trans hfind)
        refine ⟨applyUpdateData r0 now input, ?_, ?_⟩
        · exact find?_replaceRequest_self s.requests input.id r0 _ rfl hf0
        · exact applyUpdateData_reviewed_at r0 now input t (by rw [hr0]; exact hrev)
      · refine ⟨r, ?_, hrev⟩
        show (replaceRequest s.requests (applyUpdateData r0 now input)).find?
          (fun x => x.id == id) = some r
        rw [find?_replaceRequest_other _ _ _
          (by rw [show (applyUpdateData r0 now input).id = r0.id from rfl, hr0id];
              exact hcase)]
        exact hfind
  | submit now id0 =>
    cases hf0 : findRequest s id0 with
    | none =>
      have hnone : submitBudgetRequest s now id0 = .ok none := by
        simp [submitBudgetRequest, hf0]
      simp only [applyOp, hnone]
      exact ⟨r, hfind, hrev⟩
    | some r0 =>
      by_cases h1 : r0.status ≠ Status.draft
      · have herr : submitBudgetRequest s now id0 = .error (.invalidTransition r0.status) := by
          simp only [submitBudgetRequest, hf0]
          rw [if_pos h1]
        simp only [applyOp, herr]
        exact ⟨r, hfind, hrev⟩
      · by_cases h2 : r0.title = "" ∨ r0.description = "" ∨ r0.justification = ""
        · have herr : submitBudgetRequest s now id0 = .error .incompleteRequiredFields := by
            simp only [submitBudgetRequest, hf0]
            rw [if_neg h1, if_pos h2]
          simp only [applyOp, herr]
          exact ⟨r, hfind, hrev⟩
        · by_cases h3 : r0.submitted_by = ""
          · have herr : submitBudgetRequest s now id0 = .error .incompleteSubmitter := by
              simp only [submitBudgetRequest, hf0]
              rw [if_neg h1, if_neg h2, if_pos h3]
            simp only [applyOp, herr]
            exact ⟨r, hfind, hrev⟩
          · have hsub : submitBudgetRequest s now id0 =
                .ok (some ({ s with requests := replaceRequest s.requests (submitRow r0 now) },
                  submitRow r0 now)) := by
              simp only [submitBudgetRequest, hf0]
              rw [if_neg h1, if_neg h2, if_neg h3]
              rfl
            simp only [applyOp, hsub]
            have hr0id : r0.id = id0 := by simpa using List.find?_some hf0
            by_cases hcase : id0 = id
            · subst hcase
              have hr0 : r0 = r := Option.some.inj (hf0.symm.trans hfind)
              refine ⟨_, find?_replaceRequest_self s.requests id0 r0 _ rfl hf0, ?_⟩
              show r0.reviewed_at = some t
              rw [hr0]
              exact hrev
            · refine ⟨r, ?_, hrev⟩
              show (replaceRequest s.requests _).find? (fun x => x.id == id) = some r
              have hne2 : (submitRow r0 now).id ≠ id := by
                show r0.id ≠ id
                rw [hr0id]
                exact hcase
              rw [find?_replaceRequest_other _ _ _ hne2]
              exact hfind

/-- C3 counterexample: the created draft is submitted at time 1 (submitted_at
becomes 1), an update resets the status to draft without touching submitted_at,
and a second submit — a later transition into processing — re-stamps
submitted_at to 3. -/
theorem submitted_at_restamped_cex :
    createBudgetRequest store0 0 sampleInput = .ok (store1, req1) ∧
    (findRequest (applyOps store1 [Op.submit 1 1]) 1).map
      (fun r => r.submitted_at) = some (some 1) ∧
    (findRequest (applyOps store1 [Op.submit 1 1,
        Op.update 2 { emptyUpdate 1 with status := some .draft }]) 1).map
      (fun r => (r.status, r.submitted_at)) = some (.draft, some 1) ∧
    (findRequest (applyOps store1 [Op.submit 1 1,
        Op.update 2 { emptyUpdate 1 with status := some .draft },
        Op.submit 3 1]) 1).map
      (fun r => (r.status, r.submitted_at)) = some (.processing, some 3) :=
  ⟨create_sample, by decide, by decide, by decide⟩

/-- C3 (amended): an update transition never changes a non-null submitted_at
(only submit, which requires draft status, re-stamps it), and a non-null
reviewed_at survives every sequence of update and submit operations. -/
theorem timestamps_idempotent_amended
    (s : Store) (id : Int) (r : BudgetRequest)
    (hf : findRequest s id = some r) :
    (∀ (now : Nat) (input : UpdateBudgetRequestInput) (s' : Store) (r' : BudgetRequest),
      input.id = id → r.submitted_at ≠ none →
      updateBudgetRequest s now input = some (s', r') →
      r'.submitted_at = r.submitted_at) ∧
    (∀ (t : Nat) (ops : List Op), r.reviewed_at = some t →
      ∃ r', findRequest (applyOps s ops) id = some r' ∧ r'.reviewed_at = some t) := by
  constructor
  · intro now input s' r' hid hsub hupd
    simp only [updateBudgetRequest, hid, hf, Option.some.injEq, Prod.mk.injEq] at hupd
    obtain ⟨-, hr⟩ := hupd
    subst hr
    exact applyUpdateData_submitted_at r now input hsub
  · intro t ops hrev
    have main : ∀ (ops : List Op) (s0 : Store),
        (∃ r0, findRequest s0 id = some r0 ∧ r0.reviewed_at = some t) →
        ∃ r', findRequest (applyOps s0 ops) id = some r' ∧ r'.reviewed_at = some t := by
      intro ops
      induction ops with
      | nil => intro s0 h; exact h
      | cons op rest ih =>
        intro s0 h
        exact ih (applyOp s0 op) (reviewed_at_persists_step s0 id t op h)
    exact main ops s ⟨r, hf, hrev⟩

/-- The row `req1` after submit, approval and review stamping: a reviewed request. -/
def reqRev : BudgetRequest :=
  { req1 with
    status := .approved
    submitted_at := some 2
    reviewed_at := some 4
    reviewed_by := some "Manager" }

/-- A store holding the reviewed request. -/
def storeRev : Store :=
  { store1 with requests := [reqRev] }

/-- The row `reqRev` after an update that sets status processing: submitted_at and
reviewed_at are untouched. -/
def reqRevProc : BudgetRequest :=
  { reqRev with status := .processing, updated_at := 9 }

/-- The store after that update. -/
def storeRevProc : Store :=
  { storeRev with requests := [reqRevProc] }

/-- C3 (amended) witness: the concrete reviewed request keeps submitted_at = 2
across an update into processing, and keeps reviewed_at = 4 across a
two-operation sequence. -/
theorem timestamps_idempotent_amended_witness :
    findRequest storeRev 1 = some reqRev ∧
    reqRevProc.submitted_at = some 2 ∧
    (∃ r', findRequest (applyOps storeRev
        [Op.update 9 { emptyUpdate 1 with status := some .approved },
         Op.update 10 { emptyUpdate 1 with status := some .rejected }]) 1 = some r' ∧
      r'.reviewed_at = some 4) :=
  ⟨by decide,
    (timestamps_idempotent_amended storeRev 1 reqRev (by decide)).1 9
      { emptyUpdate 1 with status := some .processing } storeRevProc reqRevProc rfl
      (by decide) (by decide),
    (timestamps_idempotent_amended storeRev 1 reqRev (by decide)).2 4
      [Op.update 9 { emptyUpdate 1 with status := some .approved },
       Op.update 10 { emptyUpdate 1 with status := some .rejected }] rfl⟩

/-! ### C6 -/

/-- C6: when every request's department and category exist (the data model's
referential invariant), getBudgetRequests returns the offset/limit page of the
matching requests sorted by created_at descending, total counts all matching
rows ignoring pagination, hasMore is offset + limit < total, and an offset at
or beyond total yields an empty page with hasMore false (total unchanged,
since total does not depend on offset). -/
theorem getBudgetRequests_pagination
    (s : Store) (input : GetBudgetRequestsInput)
    (hri : ∀ r ∈ s.requests, hasDepartment s r = true ∧ hasCategory s r = true)
    (h1 : 1 ≤ input.limit) (h100 : input.limit ≤ 100) :
    (getBudgetRequests s input).requests =
      ((sortByCreatedDesc (s.requests.filter (matchesFilter input))).drop
        input.offset).take input.limit ∧
    List.Pairwise createdGE (getBudgetRequests s input).requests ∧
    (getBudgetRequests s input).total = (s.requests.filter (matchesFilter input)).length ∧
    ((getBudgetRequests s input).hasMore = true ↔
      input.offset + input.limit < (s.requests.filter (matchesFilter input)).length) ∧
    ((s.requests.filter (matchesFilter input)).length ≤ input.offset →
      (getBudgetRequests s input).requests = [] ∧
      (getBudgetRequests s input).hasMore = false) := by
  have hjoin : s.requests.filter (fun r => hasDepartment s r && hasCategory s r)
      = s.requests := by
    apply List.filter_eq_self.mpr
    intro a ha
    obtain ⟨hd, hc⟩ := hri a ha
    simp [hd, hc]
  have hreq : (getBudgetRequests s input).requests =
      ((sortByCreatedDesc (s.requests.filter (matchesFilter input))).drop
        input.offset).take input.limit := by
    simp only [getBudgetRequests, hjoin]
  have hmore : (getBudgetRequests s input).hasMore =
      decide (input.offset + input.limit <
        (s.requests.filter (matchesFilter input)).length) := rfl
  refine ⟨hreq, ?_, rfl, ?_, ?_⟩
  · rw [hreq]
    exact List.Pairwise.sublist
      ((List.take_sublist _ _).trans (List.drop_sublist _ _))
      (List.sorted_insertionSort createdGE _)
  · rw [hmore]
    exact decide_eq_true_iff
  · intro hle
    constructor
    · rw [hreq]
      have hlen : (sortByCreatedDesc (s.requests.filter (matchesFilter input))).length
          ≤ input.offset := by
        simp only [sortByCreatedDesc]
        rw [(List.perm_insertionSort createdGE _).length_eq]
        exact hle
      rw [List.drop_eq_nil_of_le hlen]
      exact List.take_nil
    · rw [hmore]
      apply decide_eq_false
      intro hcontra
      exact absurd (lt_of_le_of_lt (Nat.le_add_right input.offset input.limit) hcontra)
        (not_lt.mpr hle)

/-- C6 witness: the pagination contract instantiated at `store1` with the
unfiltered input (limit 100, offset 0). -/
theorem getBudgetRequests_pagination_witness :
    (∀ r ∈ store1.requests, hasDepartment store1 r = true ∧ hasCategory store1 r = true) ∧
    ((getBudgetRequests store1 allFilter).requests =
      ((sortByCreatedDesc (store1.requests.filter (matchesFilter allFilter))).drop
        allFilter.offset).take allFilter.limit ∧
     List.Pairwise createdGE (getBudgetRequests store1 allFilter).requests ∧
     (getBudgetRequests store1 allFilter).total =
       (store1.requests.filter (matchesFilter allFilter)).length ∧
     ((getBudgetRequests store1 allFilter).hasMore = true ↔
       allFilter.offset + allFilter.limit <
         (store1.requests.filter (matchesFilter allFilter)).length) ∧
     ((store1.requests.filter (matchesFilter allFilter)).length ≤ allFilter.offset →
       (getBudgetRequests store1 allFilter).requests = [] ∧
       (getBudgetRequests store1 allFilter).hasMore = false)) :=
  ⟨by decide, getBudgetRequests_pagination store1 allFilter (by decide) (by decide) (by decide)⟩

end BudgetApp
